import Mathlib

/-!
Verification of the traderbot trading engine.

This file shallowly embeds the data model and the operations of the
traderbot repository (src/trader) in Lean 4 and proves the testable
properties of its specification against that embedding.

Conventions of the embedding:
* Python `Decimal` (arbitrary-precision exact decimal arithmetic) is
  embedded as `ℚ`.
* Stateful methods become pure functions from an explicit state to a
  result together with the updated state; the outcome of each external
  call (RPC balance read, swap execution) is passed in as an explicit
  environment value.
* Fallible code (Python `raise`) returns `Except`.
-/

namespace Traderbot

/-- Python `Decimal` values are embedded as exact rationals. -/
abbrev Decimal := ℚ

/-- `OrderSide` from src/trader/models/order.py. -/
inductive OrderSide
  | buy
  | sell
deriving DecidableEq, Repr

/-- `PositionType` from src/trader/models/position.py. -/
inductive PositionType
  | long
  | short
deriving DecidableEq, Repr

/-- `Order` from src/trader/models/order.py (the `datetime` timestamp is
abstracted to a natural number). -/
structure Order where
  order_id : String
  input_mint : String
  output_mint : String
  quantity : Decimal
  price : Decimal
  side : OrderSide
  timestamp : Nat
deriving DecidableEq, Repr

/-- `OrderSignal` from src/trader/models/order.py: `side` and a REQUIRED
`quantity` field (the dataclass declares no default for it). -/
structure OrderSignal where
  side : OrderSide
  quantity : Decimal
deriving DecidableEq, Repr

/-- `Position` from src/trader/models/position.py. -/
structure Position where
  type : PositionType
  entry_order : Order
  exit_order : Option Order
deriving DecidableEq, Repr

/-- `Position.realized_pnl` from src/trader/models/position.py:
`(exit_order.price - entry_order.price) * entry_order.quantity` when
`exit_order` is set, `Decimal("0.0")` otherwise. -/
def Position.realized_pnl (p : Position) : Decimal :=
  match p.exit_order with
  | some ex => (ex.price - p.entry_order.price) * p.entry_order.quantity
  | none => 0

/-- `Position.unrealized_pnl` from src/trader/models/position.py. -/
def Position.unrealized_pnl (p : Position) (current_price : Decimal) : Decimal :=
  (current_price - p.entry_order.price) * p.entry_order.quantity

/-- Python `int()` applied to an exact `Decimal`: truncation toward zero. -/
def pyIntTrunc (q : ℚ) : ℤ :=
  if q < 0 then ⌈q⌉ else ⌊q⌋

/-- `Mint` from src/trader/models/mints.py. -/
structure Mint where
  mint : String
  symbol : String
  decimals : Nat
deriving DecidableEq, Repr

/-- `Mint.ui_to_raw` from src/trader/models/mints.py:
`int(ui * Decimal(10) ** decimals)`. -/
def Mint.ui_to_raw (m : Mint) (ui_amount : Decimal) : ℤ :=
  pyIntTrunc (ui_amount * 10 ^ m.decimals)

/-- `Mint.raw_to_ui` from src/trader/models/mints.py:
`Decimal(raw) / Decimal(10) ** decimals`. -/
def Mint.raw_to_ui (m : Mint) (raw_amount : ℤ) : Decimal :=
  (raw_amount : ℚ) / 10 ^ m.decimals

/-- The hard-coded mint table `SOLANA_MINTS` from src/trader/models/mints.py. -/
def SOLANA_MINTS : List Mint :=
  [ ⟨"So11111111111111111111111111111111111111112", "SOL", 9⟩,
    ⟨"EPjFWdd5AufqSSqeM2qN1xzybapC8G4wEGGkZwyTDt1v", "USDC", 6⟩,
    ⟨"Es9vMFrzaCERmJfrF4H2FYD4KCoNkY11McCe8BenwNYB", "USDT", 6⟩,
    ⟨"DezXAZ8z7PnrnRJjz3wXBoRgixCa6xjnB7YaB1pPB263", "BONK", 5⟩,
    ⟨"JUPyiwrYJFskUPiHa7hkeR8VUtAeFoSYbKedZNsDvCN", "JUP", 6⟩,
    ⟨"pumpCmXqMfrsAkQ5r49WcJnRayYRqmXz6ae8H7H9Dfn", "PUMP", 6⟩,
    ⟨"2Dyzu65QA9zdX1UeE7Gx71k7fiwyUK6sZdrvJ7auq5wm", "TURBO", 8⟩ ]

/-- The USDC mint of the table (used for concrete instantiations). -/
def usdcMint : Mint := ⟨"EPjFWdd5AufqSSqeM2qN1xzybapC8G4wEGGkZwyTDt1v", "USDC", 6⟩

/-- The distinct `ValueError` / `AssertionError` / swap failures that
`AsyncAccount.buy` and `AsyncAccount.sell` (src/trader/async_account.py)
can raise. -/
inductive TradeError
  | buyPositionOpen
  | buyMinBalance
  | sellNoPosition
  | sellMinBalance
  | swapFailed (msg : String)
  | assertionFailed
deriving DecidableEq, Repr

/-- The condition `current_position is not None and current_position.type ==
PositionType.LONG` checked by the gates in src/trader/async_account.py. -/
def isLongOpen : Option Position → Bool
  | some p => decide (p.type = PositionType.long)
  | none => false

/-- `AsyncAccount.can_buy` from src/trader/async_account.py, with the
balance that `get_balance(input_mint)` would return passed explicitly. -/
def canBuy (pos : Option Position) (balance : Decimal) : Except TradeError Unit :=
  if isLongOpen pos then .error .buyPositionOpen
  else if balance < (0.01 : ℚ) then .error .buyMinBalance
  else .ok ()

/-- `AsyncAccount.can_sell` from src/trader/async_account.py, with the
balance that `get_balance(output_mint)` would return passed explicitly. -/
def canSell (pos : Option Position) (balance : Decimal) : Except TradeError Unit :=
  if !isLongOpen pos then .error .sellNoPosition
  else if balance < (0.00001 : ℚ) then .error .sellMinBalance
  else .ok ()

/-- The mutable fields of `AsyncAccount` (src/trader/async_account.py) that
the claims are about, plus the immutable mint pair. The balance cache and
the timestamps are not part of the position / PnL state. -/
structure AccountState where
  input_mint : String
  output_mint : String
  current_position : Option Position
  total_pnl : Decimal
deriving DecidableEq, Repr

/-- `AsyncAccount.__init__`: no position, `total_pnl = Decimal("0.0")`. -/
def AccountState.init (input_mint output_mint : String) : AccountState :=
  ⟨input_mint, output_mint, none, 0⟩

/-- `AsyncAccount.buy` from src/trader/async_account.py. `balance` is the
value `get_balance(input_mint)` returns to `can_buy`; `swap` is the outcome
of `provider.swap` (`.ok order_id`, or `.error` when the call raises). -/
def AccountState.buy (st : AccountState) (balance : Decimal)
    (swap : Except String String) (price quantity : Decimal) (now : Nat) :
    Except TradeError Order × AccountState :=
  match canBuy st.current_position balance with
  | .error e => (.error e, st)
  | .ok _ =>
    match swap with
    | .error msg => (.error (.swapFailed msg), st)
    | .ok order_id =>
      let order : Order :=
        { order_id := order_id, input_mint := st.input_mint, output_mint := st.output_mint,
          quantity := quantity, price := price, side := OrderSide.buy, timestamp := now }
      let newPos : Position :=
        { type := PositionType.long, entry_order := order, exit_order := none }
      (.ok order, { st with current_position := some newPos })

/-- `AsyncAccount.sell` from src/trader/async_account.py: after a successful
swap the exit order is attached to the current position, its `realized_pnl`
is added to `total_pnl`, and `current_position` is reset to `None`. -/
def AccountState.sell (st : AccountState) (balance : Decimal)
    (swap : Except String String) (price quantity : Decimal) (now : Nat) :
    Except TradeError Order × AccountState :=
  match canSell st.current_position balance with
  | .error e => (.error e, st)
  | .ok _ =>
    match swap with
    | .error msg => (.error (.swapFailed msg), st)
    | .ok order_id =>
      let order : Order :=
        { order_id := order_id, input_mint := st.input_mint, output_mint := st.output_mint,
          quantity := quantity, price := price, side := OrderSide.sell, timestamp := now }
      match st.current_position with
      | none => (.error .assertionFailed, st)
      | some pos =>
        let closed : Position := { pos with exit_order := some order }
        (.ok order,
          { st with current_position := none,
                    total_pnl := st.total_pnl + closed.realized_pnl })

/-- One `place_order` call together with the environment it observes: the
balance the gate reads and the outcome of the underlying `provider.swap`. -/
structure TradeRequest where
  side : OrderSide
  price : Decimal
  quantity : Decimal
  balance : Decimal
  swap : Except String String
  now : Nat

/-- `AsyncAccount.place_order` from src/trader/async_account.py. -/
def AccountState.placeOrder (st : AccountState) (r : TradeRequest) :
    Except TradeError Order × AccountState :=
  match r.side with
  | .buy => st.buy r.balance r.swap r.price r.quantity r.now
  | .sell => st.sell r.balance r.swap r.price r.quantity r.now

/-- Run a sequence of `place_order` calls; a call that raises leaves the
state as `place_order` left it (the trading loop catches the exception and
continues). -/
def AccountState.runTrades (st : AccountState) : List TradeRequest → AccountState
  | [] => st
  | r :: rs => ((st.placeOrder r).2).runTrades rs

/-- The orders successfully placed along a run of `place_order` calls. -/
def AccountState.successfulOrders (st : AccountState) :
    List TradeRequest → List Order
  | [] => []
  | r :: rs =>
    match st.placeOrder r with
    | (.ok o, st2) => o :: st2.successfulOrders rs
    | (.error _, st2) => st2.successfulOrders rs

/-- The number of successful orders of a given side along a run. -/
def AccountState.successCount (st : AccountState) (side : OrderSide)
    (trs : List TradeRequest) : Nat :=
  ((st.successfulOrders trs).filter (fun o => o.side == side)).length

/-- The positions closed along a run: each successful sell closes the
position that was current when it executed, with the sell order attached as
its exit order. -/
def AccountState.closedPositions (st : AccountState) :
    List TradeRequest → List Position
  | [] => []
  | r :: rs =>
    let step := st.placeOrder r
    (match st.current_position, step.1 with
     | some p, .ok o =>
       if o.side = OrderSide.sell then [{ p with exit_order := some o }] else []
     | _, _ => []) ++ step.2.closedPositions rs

/-- `AsyncAccount.get_total_realized_pnl` from src/trader/async_account.py. -/
def AccountState.get_total_realized_pnl (st : AccountState) : Decimal :=
  st.total_pnl

/-- The slippage-BPS progression `[50, 50, 75]` of `_do_swap_with_retry`
(src/trader/providers/jupiter/async_jupiter_svc.py and
src/trader/providers/jupiter/jupiter_adapter.py). -/
def slippageSchedule : List Nat := [50, 50, 75]

/-- `_do_swap_with_retry`, the three-iteration `for i in range(3)` loop
unrolled. `f i bps` is the outcome of the `_do_swap` call of attempt `i`
with slippage `bps`; on attempt 0 and 1 a failure is swallowed and the next
attempt runs, on attempt 2 the failure is re-raised unchanged. -/
def doSwapWithRetry {E R : Type} (f : Nat → Nat → Except E R) : Except E R :=
  match f 0 50 with
  | .ok r => .ok r
  | .error _ =>
    match f 1 50 with
    | .ok r => .ok r
    | .error _ => f 2 75

/-- The slippage values of the `_do_swap` calls that `_do_swap_with_retry`
actually performs against backend `f`, in order. -/
def doSwapAttempts {E R : Type} (f : Nat → Nat → Except E R) : List Nat :=
  match f 0 50 with
  | .ok _ => [50]
  | .error _ =>
    match f 1 50 with
    | .ok _ => [50, 50]
    | .error _ => [50, 50, 75]

/-- A swap backend that fails the first `n` calls (call `i` raising `e i`)
and succeeds with `r` from then on. -/
def failNTimesBackend {E R : Type} (e : Nat → E) (r : R) (n : Nat) :
    Nat → Nat → Except E R :=
  fun i _ => if i < n then .error (e i) else .ok r

/-- Modelled from the spec: ticker snapshot as read by the strategies and
the bot. The `spread` field (spec section 3, `spread?`) is read by
`TargetValueStrategy.on_market_refresh` but is absent from the `TickerData`
dataclass in src/trader/models/public_data.py; only the fields the
strategies and the trading loop consult (`buy`, `last`, `spread`) are
modelled. -/
structure TickerData where
  buy : Decimal
  last : Decimal
  spread : Option Decimal
deriving DecidableEq, Repr

/-- The argument list a strategy passes to the `OrderSignal` constructor:
`quantity` is `none` when the call site omits the argument (as
`OrderSignal(OrderSide.BUY)` does); the constructor itself is modelled by
`mkOrderSignal`. -/
structure EmittedSignal where
  side : OrderSide
  quantity : Option Decimal
deriving DecidableEq, Repr

/-- The Python errors the embedding distinguishes. `OrderSignal` declares
`quantity` without a default, so calling the dataclass constructor with the
argument omitted raises `TypeError`. -/
inductive PyError
  | typeError
deriving DecidableEq, Repr

/-- The `OrderSignal(...)` dataclass constructor of
src/trader/models/order.py applied to an argument list: `quantity` is a
required parameter, so omitting it raises `TypeError`. -/
def mkOrderSignal (sig : EmittedSignal) : Except PyError OrderSignal :=
  match sig.quantity with
  | some q => .ok { side := sig.side, quantity := q }
  | none => .error PyError.typeError

/-- The parameters and mutable state of `TargetValueStrategy`
(src/trader/trading_strategy.py). `max_history_size = 60*60*4/10 = 1440`
and the unused `report_interval` is omitted. -/
structure TargetValueStrategy where
  target_buy_price : Decimal
  target_profit_percent : Decimal
  stop_loss_percent : Decimal
  balance_percent : Decimal
  max_spread : Decimal
  max_position_periods : Nat
  target_profit_reached : Bool
  highest_price_after_target : Decimal
  position_periods : Nat
  last_price : Option Decimal
  price_history : List Decimal
  same_target_count : Nat
deriving DecidableEq, Repr

/-- `TargetValueStrategy.__init__` from src/trader/trading_strategy.py. -/
def TargetValueStrategy.init (target_buy_price target_profit_percent
    stop_loss_percent balance_percent max_spread : Decimal) :
    TargetValueStrategy :=
  { target_buy_price, target_profit_percent, stop_loss_percent,
    balance_percent, max_spread, max_position_periods := 10,
    target_profit_reached := false, highest_price_after_target := 0,
    position_periods := 0, last_price := none, price_history := [],
    same_target_count := 0 }

/-- `TargetValueStrategy.calculate_quantity` from
src/trader/trading_strategy.py. -/
def TargetValueStrategy.calculate_quantity (s : TargetValueStrategy)
    (balance price : Decimal) : Decimal :=
  if balance ≥ 5 then 5 / price
  else balance * (s.balance_percent / 100) / price

/-- The tail of the buy branch of `TargetValueStrategy.on_market_refresh`
after the spread check: skip (updating `last_price`) while the price is
still falling or no previous price is known, otherwise execute
`return OrderSignal(OrderSide.BUY)` — the constructor call
(`mkOrderSignal`) omits the required quantity argument and therefore
raises `TypeError`, after `position_periods` has already been reset. -/
def TargetValueStrategy.buyBranchTail (s : TargetValueStrategy)
    (current_price : Decimal) :
    Except PyError (Option OrderSignal) × TargetValueStrategy :=
  match s.last_price with
  | none => (.ok none, { s with last_price := some current_price })
  | some lp =>
    if current_price < lp then
      (.ok none, { s with last_price := some current_price })
    else
      ((mkOrderSignal ⟨OrderSide.buy, none⟩).map some,
        { s with position_periods := 0 })

/-- `TargetValueStrategy.on_market_refresh` from
src/trader/trading_strategy.py (the commented-out recalculation and
max-period blocks of the source are dead code and not modelled). Both
`OrderSignal(...)` call sites go through the dataclass constructor
(`mkOrderSignal`): the sell call passes both arguments and succeeds, the
buy call omits the required quantity and raises `TypeError`. -/
def TargetValueStrategy.on_market_refresh (s : TargetValueStrategy)
    (ticker : TickerData) (current_position : Option Position) :
    Except PyError (Option OrderSignal) × TargetValueStrategy :=
  let current_price := ticker.buy
  let s0 : TargetValueStrategy :=
    { s with price_history := s.price_history ++ [current_price],
             same_target_count := s.same_target_count + 1 }
  let s1 : TargetValueStrategy :=
    { s0 with price_history :=
        if s0.price_history.length > 1440 then s0.price_history.tail
        else s0.price_history }
  match current_position with
  | none =>
    let s2 : TargetValueStrategy :=
      { s1 with target_profit_reached := false, highest_price_after_target := 0 }
    if current_price ≤ s2.target_buy_price then
      match ticker.spread with
      | some sp =>
        if sp > s2.max_spread then (.ok none, s2)
        else s2.buyBranchTail current_price
      | none => s2.buyBranchTail current_price
    else
      (.ok none, { s2 with last_price := some current_price })
  | some pos =>
    let entry_price := pos.entry_order.price
    let profit_percent := (current_price - entry_price) / entry_price * 100
    if profit_percent ≥ s1.target_profit_percent ∨
        (s1.target_profit_reached = true ∧
          profit_percent ≥ s1.target_profit_percent - (1.1 : ℚ)) then
      let s2 : TargetValueStrategy :=
        { s1 with position_periods := s1.position_periods + 1 }
      let s3 : TargetValueStrategy :=
        if s2.target_profit_reached then s2
        else { s2 with target_profit_reached := true,
                       highest_price_after_target := current_price }
      let s4 : TargetValueStrategy :=
        if current_price > s3.highest_price_after_target then
          { s3 with highest_price_after_target := current_price }
        else s3
      let drop_percent :=
        (s4.highest_price_after_target - current_price) /
          s4.highest_price_after_target * 100
      if drop_percent ≥ s4.stop_loss_percent then
        ((mkOrderSignal ⟨OrderSide.sell, some pos.entry_order.quantity⟩).map
          some, s4)
      else
        (.ok none, { s4 with last_price := some current_price })
    else
      (.ok none, { s1 with last_price := some current_price })

/-- The parameters and mutable state of `RandomStrategy`
(src/trader/trading_strategy.py). -/
structure RandomStrategy where
  buy_chance : Nat
  sell_chance : Nat
  price_history : List Decimal
deriving DecidableEq, Repr

/-- `RandomStrategy.calculate_quantity` from src/trader/trading_strategy.py:
`(balance * Decimal("0.5")) / price`. -/
def RandomStrategy.calculate_quantity (balance price : Decimal) : Decimal :=
  balance * (0.5 : ℚ) / price

/-- `RandomStrategy.on_market_refresh` from src/trader/trading_strategy.py.
`rand` is the value drawn by `random.randint(1, 100)`. The buy branch calls
`OrderSignal(OrderSide.BUY)` with the quantity argument omitted, which the
dataclass constructor (`mkOrderSignal`) rejects with `TypeError`. -/
def RandomStrategy.on_market_refresh (s : RandomStrategy) (ticker : TickerData)
    (rand : Nat) (current_position : Option Position) :
    Except PyError (Option OrderSignal) × RandomStrategy :=
  let s1 : RandomStrategy :=
    { s with price_history := s.price_history ++ [ticker.last] }
  match current_position with
  | none =>
    if rand ≤ s.buy_chance then
      let s2 : RandomStrategy := { s1 with price_history := [] }
      ((mkOrderSignal ⟨OrderSide.buy, none⟩).map some, s2)
    else
      (.ok none, s1)
  | some pos =>
    if rand ≤ s.sell_chance then
      let s2 : RandomStrategy := { s1 with price_history := [] }
      ((mkOrderSignal ⟨OrderSide.sell, some pos.entry_order.quantity⟩).map some, s2)
    else
      (.ok none, s1)

/-- `AsyncWebsocketTradingBot.process_market_data` from
src/trader/bot/async_websocket_bot.py, with the strategy's already-computed
signal passed in: when the signal is present the bot calls
`account.place_order(current_ticker.last, position_signal.side,
position_signal.quantity)` — the signal's quantity is forwarded verbatim and
`strategy.calculate_quantity` is never consulted. `balance`, `swap` and
`now` are the environment of the `place_order` call. -/
def processMarketData (account : AccountState) (current_ticker : TickerData)
    (position_signal : Option OrderSignal) (balance : Decimal)
    (swap : Except String String) (now : Nat) :
    Except TradeError (Option Order) × AccountState :=
  match position_signal with
  | none => (.ok none, account)
  | some sig =>
    let step := account.placeOrder
      { side := sig.side, price := current_ticker.last,
        quantity := sig.quantity, balance, swap, now }
    (step.1.map some, step.2)

/-- The externally observable operations of the swap pipeline
(src/trader/providers/jupiter): aggregator quote, swap-transaction build,
blockhash fetch + signing, RPC simulation, `send_raw_transaction`, and a
`get_signature_statuses` confirmation poll. -/
inductive RpcOp
  | quote
  | buildTx
  | signTx
  | simulate
  | sendRaw
  | statusPoll
deriving DecidableEq, Repr

/-- The environment of one pipeline run: whether the aggregator returns an
empty route plan, whether simulation reports an error, the signature the
real `send_raw_transaction` would return, and whether the real confirmation
poll reaches Confirmed/Finalized. Signatures are abstracted to naturals. -/
structure PipelineEnv where
  routePlanEmpty : Bool
  simulateErr : Bool
  sendSignature : Nat
  confirmOk : Bool
deriving DecidableEq, Repr

/-- `AsyncRPCClient.send_transaction` from
src/trader/providers/jupiter/async_rpc_client.py: in dry-run it returns a
fabricated `Signature.new_unique()` (modelled by a counter, incremented per
fabrication) WITHOUT calling `client.send_raw_transaction`; otherwise it
sends the raw transaction. Returns (result, ops performed, new counter). -/
def asyncSendTransaction (is_dryrun : Bool) (env : PipelineEnv)
    (counter : Nat) : Except String Nat × List RpcOp × Nat :=
  if is_dryrun then (.ok counter, [], counter + 1)
  else (.ok env.sendSignature, [RpcOp.sendRaw], counter)

/-- Modelled from the spec: `AsyncRPCClient.wait_for_confirmation` is
invoked by `AsyncJupiterService._wait_for_confirmation`
(src/trader/providers/jupiter/async_jupiter_svc.py) but the method itself
is absent from src (the client only defines the analogous
`check_signature_is_confirmed`, which returns True immediately in dry-run).
Modelled from spec section 4.3 step 6: in dry-run confirmation returns
success immediately; otherwise the RPC is polled for the signature status
and a non-confirmed outcome raises. -/
def asyncWaitForConfirmation (is_dryrun : Bool) (env : PipelineEnv) :
    Except String Unit × List RpcOp :=
  if is_dryrun then (.ok (), [])
  else if env.confirmOk then (.ok (), [RpcOp.statusPoll])
  else (.error "Transacao nao foi confirmada a tempo.", [RpcOp.statusPoll])

/-- `AsyncJupiterService._do_swap` from
src/trader/providers/jupiter/async_jupiter_svc.py: quote (failing when the
route plan is empty), build, sign, then `_send_signed_transaction`
(simulate, then `rpc_client.send_transaction`) and `_wait_for_confirmation`.
Returns (result, ops performed in order, new signature counter). -/
def asyncDoSwap (is_dryrun : Bool) (env : PipelineEnv) (counter : Nat) :
    Except String Nat × List RpcOp × Nat :=
  if env.routePlanEmpty then
    (.error "Nenhuma rota encontrada!", [RpcOp.quote], counter)
  else
    let ops0 := [RpcOp.quote, RpcOp.buildTx, RpcOp.signTx]
    if env.simulateErr then
      (.error "Erro ao simular transacao", ops0 ++ [RpcOp.simulate], counter)
    else
      let send := asyncSendTransaction is_dryrun env counter
      match send.1 with
      | .error msg => (.error msg, ops0 ++ [RpcOp.simulate] ++ send.2.1, send.2.2)
      | .ok sig =>
        let conf := asyncWaitForConfirmation is_dryrun env
        match conf.1 with
        | .error msg =>
          (.error msg, ops0 ++ [RpcOp.simulate] ++ send.2.1 ++ conf.2, send.2.2)
        | .ok _ =>
          (.ok sig, ops0 ++ [RpcOp.simulate] ++ send.2.1 ++ conf.2, send.2.2)

/-- `JupiterPrivateAPI._do_swap` from
src/trader/providers/jupiter/jupiter_adapter.py (the synchronous real
adapter): quote, build, sign, then `_send_transaction_and_wait_for_confirmation`
= `_send_signed_transaction` (simulate + `send_raw_transaction`) followed by
the `_wait_for_confirmation` polling loop. -/
def jupiterPrivateDoSwap (env : PipelineEnv) : Except String Nat × List RpcOp :=
  if env.routePlanEmpty then
    (.error "Nenhuma rota encontrada!", [RpcOp.quote])
  else if env.simulateErr then
    (.error "Erro ao simular transacao",
      [RpcOp.quote, RpcOp.buildTx, RpcOp.signTx, RpcOp.simulate])
  else if env.confirmOk then
    (.ok env.sendSignature,
      [RpcOp.quote, RpcOp.buildTx, RpcOp.signTx, RpcOp.simulate,
        RpcOp.sendRaw, RpcOp.statusPoll])
  else
    (.error "Transacao nao foi confirmada a tempo.",
      [RpcOp.quote, RpcOp.buildTx, RpcOp.signTx, RpcOp.simulate,
        RpcOp.sendRaw, RpcOp.statusPoll])

/-- `DryJupiterPrivateAPI._do_swap` from
src/trader/providers/jupiter/jupiter_adapter.py: the inherited `_do_swap`
(quote, build, sign) with `_send_transaction_and_wait_for_confirmation`
overridden to return `SendTransactionResp(value=Signature.new_unique())`
directly — the override skips `_send_signed_transaction`, so besides the
submit and the confirmation wait, the simulation step is skipped too. -/
def dryJupiterPrivateDoSwap (env : PipelineEnv) (counter : Nat) :
    Except String Nat × List RpcOp × Nat :=
  if env.routePlanEmpty then
    (.error "Nenhuma rota encontrada!", [RpcOp.quote], counter)
  else
    (.ok counter, [RpcOp.quote, RpcOp.buildTx, RpcOp.signTx], counter + 1)

/-- 1 when a position is open, 0 otherwise (proof-side accounting). -/
def posIndicator (st : AccountState) : ℤ :=
  if st.current_position.isSome then 1 else 0

/-- C10: on an open position (`exit_order` is None) the `realized_pnl`
accessor is total and returns exactly Decimal 0, so it contributes nothing
to any sum of `realized_pnl` over positions. -/
theorem realized_pnl_open_total_c10 (p : Position) (h : p.exit_order = none) :
    p.realized_pnl = 0 ∧
      ∀ ps : List Position,
        ((p :: ps).map Position.realized_pnl).sum =
          (ps.map Position.realized_pnl).sum := by
  have h0 : p.realized_pnl = 0 := by
    unfold Position.realized_pnl
    rw [h]
  exact ⟨h0, fun ps => by simp [h0]⟩

/-- Witness for C10 at a concrete open long position. -/
theorem realized_pnl_open_total_c10_witness :
    (({ type := PositionType.long,
        entry_order := ⟨"1", "A", "B", 10, (10.0001 : ℚ), OrderSide.buy, 0⟩,
        exit_order := none } : Position).realized_pnl = 0) :=
  (realized_pnl_open_total_c10 _ rfl).1

/-- C2: `can_buy` fails iff a Long position is already open or the
available `input_mint` balance is below 0.01 UI (in particular it fails for
every balance whenever a Long position is open), and `can_sell` fails iff
no Long position is open or the available `output_mint` balance is below
1e-5 UI. -/
theorem can_buy_can_sell_gates_c2 (pos : Option Position) (balance : Decimal) :
    ((canBuy pos balance ≠ .ok ()) ↔
      (isLongOpen pos = true ∨ balance < (0.01 : ℚ))) ∧
    (isLongOpen pos = true → canBuy pos balance = .error .buyPositionOpen) ∧
    ((canSell pos balance ≠ .ok ()) ↔
      (isLongOpen pos = false ∨ balance < (0.00001 : ℚ))) := by
  unfold canBuy canSell
  cases h : isLongOpen pos <;> simp [h] <;> split_ifs <;> simp_all

/-- Witness for C2: with a concrete open Long position `can_buy` fails with
the position-open error for a comfortable balance. -/
theorem can_buy_can_sell_gates_c2_witness :
    canBuy (some ⟨PositionType.long,
      ⟨"1", "A", "B", 10, (10 : ℚ), OrderSide.buy, 0⟩, none⟩) 100 =
      .error .buyPositionOpen :=
  (can_buy_can_sell_gates_c2 _ 100).2.1 rfl

/-- C3: the pipeline runs the quote-to-confirm sequence at most 3 times
with slippage BPS 50, 50, 75 across attempts; against a backend that fails
its first `n` calls and then succeeds, it returns success iff `n < 3`, and
for `n ≥ 3` the third attempt's failure is surfaced unchanged. -/
theorem swap_retry_policy_c3 {E R : Type} (e : Nat → E) (r : R) (n : Nat) :
    (doSwapWithRetry (failNTimesBackend e r n) = .ok r ↔ n < 3) ∧
    (3 ≤ n → doSwapWithRetry (failNTimesBackend e r n) = .error (e 2)) ∧
    (doSwapAttempts (failNTimesBackend e r n) = slippageSchedule.take (n + 1)) ∧
    (∀ f : Nat → Nat → Except E R,
      (doSwapAttempts f).length ≤ 3 ∧
      (doSwapAttempts f = [50] ∨ doSwapAttempts f = [50, 50] ∨
        doSwapAttempts f = [50, 50, 75])) := by
  refine ⟨?_, ?_, ?_, ?_⟩
  · match n with
    | 0 => simp [doSwapWithRetry, failNTimesBackend]
    | 1 => simp [doSwapWithRetry, failNTimesBackend]
    | 2 => simp [doSwapWithRetry, failNTimesBackend]
    | (k + 3) =>
      simp [doSwapWithRetry, failNTimesBackend, Nat.lt_add_of_pos_right, Nat.succ_lt_succ]
  · intro h3
    match n with
    | (k + 3) =>
      simp [doSwapWithRetry, failNTimesBackend, Nat.lt_add_of_pos_right, Nat.succ_lt_succ]
  · match n with
    | 0 => simp [doSwapAttempts, failNTimesBackend, slippageSchedule]
    | 1 => simp [doSwapAttempts, failNTimesBackend, slippageSchedule]
    | 2 => simp [doSwapAttempts, failNTimesBackend, slippageSchedule]
    | (k + 3) =>
      simp [doSwapAttempts, failNTimesBackend, slippageSchedule,
        Nat.lt_add_of_pos_right, Nat.succ_lt_succ, List.take_of_length_le]
  · intro f
    unfold doSwapAttempts
    rcases f 0 50 with _ | _ <;> rcases f 1 50 with _ | _ <;> simp

/-- Witness for C3: with a backend failing all of the first three calls,
the error of call index 2 (the third attempt) is surfaced unchanged. -/
theorem swap_retry_policy_c3_witness :
    doSwapWithRetry (failNTimesBackend (fun i => i) 7 3) = .error 2 :=
  (swap_retry_policy_c3 (fun i => i) 7 3).2.1 (by norm_num)

/-- C5: `ui_to_raw` computes `ui * 10 ^ decimals` truncated toward zero
(magnitude bounds plus sign preservation), and for any Decimal whose scale
is at most `decimals` (i.e. `x * 10 ^ decimals` is an integer) the round
trip `raw_to_ui (ui_to_raw x) = x` holds exactly. -/
theorem mint_ui_raw_roundtrip_c5 (m : Mint) (x : Decimal) :
    (|((m.ui_to_raw x : ℤ) : ℚ)| ≤ |x * 10 ^ m.decimals| ∧
      |x * 10 ^ m.decimals| < |((m.ui_to_raw x : ℤ) : ℚ)| + 1 ∧
      (0 ≤ x → 0 ≤ m.ui_to_raw x) ∧ (x ≤ 0 → m.ui_to_raw x ≤ 0)) ∧
    ((∃ z : ℤ, x * 10 ^ m.decimals = (z : ℚ)) →
      m.raw_to_ui (m.ui_to_raw x) = x) := by
  have hpow : (0 : ℚ) < 10 ^ m.decimals := by positivity
  set q : ℚ := x * 10 ^ m.decimals with hq
  have htr : m.ui_to_raw x = pyIntTrunc q := rfl
  constructor
  · rw [htr]
    unfold pyIntTrunc
    split_ifs with hneg
    · have hceil_int : ⌈q⌉ ≤ (0 : ℤ) := Int.ceil_le.mpr (by exact_mod_cast hneg.le)
      have hceil_le : (⌈q⌉ : ℚ) ≤ 0 := by exact_mod_cast hceil_int
      have hle : q ≤ (⌈q⌉ : ℚ) := Int.le_ceil q
      have hlt : (⌈q⌉ : ℚ) < q + 1 := by exact_mod_cast Int.ceil_lt_add_one q
      refine ⟨?_, ?_, ?_, ?_⟩
      · rw [abs_of_nonpos hceil_le, abs_of_nonpos hneg.le]
        linarith
      · rw [abs_of_nonpos hceil_le, abs_of_nonpos hneg.le]
        linarith
      · intro hx
        exfalso
        have : 0 ≤ q := by
          rw [hq]
          exact mul_nonneg hx hpow.le
        linarith
      · intro _
        exact_mod_cast hceil_le
    · push_neg at hneg
      have hfloor_int : (0 : ℤ) ≤ ⌊q⌋ := Int.le_floor.mpr (by exact_mod_cast hneg)
      have hfloor_nn : (0 : ℚ) ≤ (⌊q⌋ : ℚ) := by exact_mod_cast hfloor_int
      have hle : (⌊q⌋ : ℚ) ≤ q := Int.floor_le q
      have hlt : q < (⌊q⌋ : ℚ) + 1 := Int.lt_floor_add_one q
      refine ⟨?_, ?_, ?_, ?_⟩
      · rw [abs_of_nonneg hfloor_nn, abs_of_nonneg hneg]
        exact hle
      · rw [abs_of_nonneg hfloor_nn, abs_of_nonneg hneg]
        exact hlt
      · intro _
        exact_mod_cast hfloor_nn
      · intro hx
        have hq0 : q ≤ 0 := by
          rw [hq]
          exact mul_nonpos_of_nonpos_of_nonneg hx hpow.le
        have : q = 0 := le_antisymm hq0 hneg
        simp [this]
  · rintro ⟨z, hz⟩
    have hcast : m.ui_to_raw x = z := by
      rw [htr]
      unfold pyIntTrunc
      rw [hz]
      split_ifs <;> simp
    rw [Mint.raw_to_ui, hcast, div_eq_iff hpow.ne.symm]
    exact hz.symm

/-- Witness for C5 at the USDC mint (6 decimals) and x = 1.23 (scale 2):
the round trip is exact. -/
theorem mint_ui_raw_roundtrip_c5_witness :
    usdcMint.raw_to_ui (usdcMint.ui_to_raw (1.23 : ℚ)) = (1.23 : ℚ) :=
  (mint_ui_raw_roundtrip_c5 usdcMint (1.23 : ℚ)).2
    ⟨1230000, by norm_num [usdcMint]⟩

/-- A Long position is open exactly when the option holds a position of
type Long. -/
theorem isLongOpen_true_iff (pos : Option Position) :
    isLongOpen pos = true ↔
      ∃ p, pos = some p ∧ p.type = PositionType.long := by
  cases pos <;> simp [isLongOpen]

/-- `can_buy` succeeds exactly when no Long position is open and the
balance is at least the 0.01 minimum. -/
theorem canBuy_ok_iff (pos : Option Position) (bal : Decimal) :
    canBuy pos bal = .ok () ↔
      isLongOpen pos = false ∧ ¬ bal < (0.01 : ℚ) := by
  unfold canBuy
  cases h : isLongOpen pos <;> simp [h] <;> split_ifs <;> simp_all

/-- `can_sell` succeeds exactly when a Long position is open and the
balance is at least the 1e-5 minimum. -/
theorem canSell_ok_iff (pos : Option Position) (bal : Decimal) :
    canSell pos bal = .ok () ↔
      isLongOpen pos = true ∧ ¬ bal < (0.00001 : ℚ) := by
  unfold canSell
  cases h : isLongOpen pos <;> simp [h] <;> split_ifs <;> simp_all


/-- Full case analysis of one `place_order` call: either it raises and
leaves the state unchanged, or it succeeds and performs exactly the buy or
sell transition of the source. -/
theorem placeOrder_spec (st : AccountState) (r : TradeRequest) :
    ((st.placeOrder r).2 = st ∧ ∀ o, (st.placeOrder r).1 ≠ .ok o) ∨
    (∃ o, (st.placeOrder r).1 = .ok o ∧ o.side = r.side ∧
      ((r.side = OrderSide.buy ∧ isLongOpen st.current_position = false ∧
        (st.placeOrder r).2 =
          { st with current_position := some ⟨PositionType.long, o, none⟩ }) ∨
       (r.side = OrderSide.sell ∧ ∃ p, st.current_position = some p ∧
         p.type = PositionType.long ∧
         (st.placeOrder r).2 =
           { st with current_position := none,
                     total_pnl := st.total_pnl +
                       Position.realized_pnl ⟨p.type, p.entry_order, some o⟩ }))) := by
  cases hs : r.side
  · rcases hcb : canBuy st.current_position r.balance with e | u
    · left
      constructor <;>
        simp [AccountState.placeOrder, AccountState.buy, hs, hcb]
    · have hl : isLongOpen st.current_position = false :=
        ((canBuy_ok_iff _ _).mp hcb).1
      rcases hsw : r.swap with msg | oid
      · left
        constructor <;>
          simp [AccountState.placeOrder, AccountState.buy, hs, hcb, hsw]
      · right
        refine ⟨⟨oid, st.input_mint, st.output_mint, r.quantity, r.price,
          OrderSide.buy, r.now⟩, ?_, rfl, Or.inl ⟨rfl, hl, ?_⟩⟩ <;>
          simp [AccountState.placeOrder, AccountState.buy, hs, hcb, hsw]
  · rcases hcs : canSell st.current_position r.balance with e | u
    · left
      constructor <;>
        simp [AccountState.placeOrder, AccountState.sell, hs, hcs]
    · obtain ⟨p, hp, hpl⟩ :=
        (isLongOpen_true_iff _).mp ((canSell_ok_iff _ _).mp hcs).1
      rcases hsw : r.swap with msg | oid
      · left
        constructor <;>
          simp [AccountState.placeOrder, AccountState.sell, hs, hcs, hsw]
      · right
        rw [hp] at hcs
        refine ⟨⟨oid, st.input_mint, st.output_mint, r.quantity, r.price,
          OrderSide.sell, r.now⟩, ?_, rfl, Or.inr ⟨rfl, p, hp, hpl, ?_⟩⟩ <;>
          simp [AccountState.placeOrder, AccountState.sell, hs, hcs, hsw, hp]

/-- On a failed `place_order`, the call result is a pair of the error and
the unchanged state. -/
theorem placeOrder_pair_of_fail (st : AccountState) (r : TradeRequest)
    (h2 : (st.placeOrder r).2 = st) (hf : ∀ o, (st.placeOrder r).1 ≠ .ok o) :
    ∃ e, st.placeOrder r = (.error e, st) := by
  rcases h1 : (st.placeOrder r).1 with e | o
  · exact ⟨e, Prod.ext h1 h2⟩
  · exact absurd h1 (hf o)

/-- Invariant of a run: every reachable open position is Long, and the
difference between successful buys and successful sells equals the change
of the open-position indicator. -/
theorem runTrades_invariant (trs : List TradeRequest) :
    ∀ st : AccountState,
      (∀ p, st.current_position = some p → p.type = PositionType.long) →
      ((∀ p, (st.runTrades trs).current_position = some p →
          p.type = PositionType.long) ∧
        ((st.successCount OrderSide.buy trs : ℤ) -
            (st.successCount OrderSide.sell trs : ℤ) =
          posIndicator (st.runTrades trs) - posIndicator st)) := by
  induction trs with
  | nil =>
    intro st hgood
    exact ⟨hgood, by
      simp [AccountState.runTrades, AccountState.successCount,
        AccountState.successfulOrders]⟩
  | cons r rs ih =>
    intro st hgood
    rcases placeOrder_spec st r with ⟨hst, hfail⟩ | ⟨o, hok, hoside, hcases⟩
    · obtain ⟨e, hpair⟩ := placeOrder_pair_of_fail st r hst hfail
      have hrun : st.runTrades (r :: rs) = st.runTrades rs := by
        simp [AccountState.runTrades, hpair]
      have hord : ∀ side, st.successCount side (r :: rs) =
          st.successCount side rs := by
        intro side
        simp [AccountState.successCount, AccountState.successfulOrders, hpair]
      obtain ⟨hg, hc⟩ := ih st hgood
      refine ⟨by rw [hrun]; exact hg, ?_⟩
      rw [hrun, hord, hord]
      exact hc
    · rcases hcases with ⟨hside, hl, hst2⟩ | ⟨hside, p, hp, hpl, hst2⟩
      · -- successful buy
        have hpair : st.placeOrder r =
            (.ok o, { st with current_position :=
                                some ⟨PositionType.long, o, none⟩ }) :=
          Prod.ext hok hst2
        have hnone : st.current_position = none := by
          rcases hcp : st.current_position with _ | p
          · rfl
          · have ht : isLongOpen st.current_position = true :=
              (isLongOpen_true_iff _).mpr ⟨p, hcp, hgood p hcp⟩
            rw [hl] at ht
            exact absurd ht (by decide)
        obtain ⟨hg, hc⟩ := ih
          { st with current_position := some ⟨PositionType.long, o, none⟩ }
          (by
            intro q hq
            simp at hq
            subst hq
            rfl)
        have hrun : st.runTrades (r :: rs) =
            AccountState.runTrades
              { st with current_position := some ⟨PositionType.long, o, none⟩ }
              rs := by
          simp [AccountState.runTrades, hpair]
        have hcountB : st.successCount OrderSide.buy (r :: rs) =
            AccountState.successCount
              { st with current_position := some ⟨PositionType.long, o, none⟩ }
              OrderSide.buy rs + 1 := by
          simp [AccountState.successCount, AccountState.successfulOrders,
            hpair, hoside, hside]
        have hcountS : st.successCount OrderSide.sell (r :: rs) =
            AccountState.successCount
              { st with current_position := some ⟨PositionType.long, o, none⟩ }
              OrderSide.sell rs := by
          simp [AccountState.successCount, AccountState.successfulOrders,
            hpair, hoside, hside]
        refine ⟨by rw [hrun]; exact hg, ?_⟩
        rw [hrun, hcountB, hcountS]
        have hiSt : posIndicator st = 0 := by simp [posIndicator, hnone]
        have hiB : posIndicator
            { st with current_position := some ⟨PositionType.long, o, none⟩ } =
            1 := by simp [posIndicator]
        rw [hiB] at hc
        rw [hiSt]
        push_cast
        linarith
      · -- successful sell
        have hpair : st.placeOrder r =
            (.ok o, { st with current_position := none,
                              total_pnl := st.total_pnl +
                                Position.realized_pnl ⟨p.type, p.entry_order, some o⟩ }) :=
          Prod.ext hok hst2
        obtain ⟨hg, hc⟩ := ih
          { st with current_position := none,
                    total_pnl := st.total_pnl +
                      Position.realized_pnl ⟨p.type, p.entry_order, some o⟩ }
          (by intro q hq; simp at hq)
        have hrun : st.runTrades (r :: rs) =
            AccountState.runTrades
              { st with current_position := none,
                        total_pnl := st.total_pnl +
                          Position.realized_pnl ⟨p.type, p.entry_order, some o⟩ }
              rs := by
          simp [AccountState.runTrades, hpair]
        have hcountB : st.successCount OrderSide.buy (r :: rs) =
            AccountState.successCount
              { st with current_position := none,
                        total_pnl := st.total_pnl +
                          Position.realized_pnl ⟨p.type, p.entry_order, some o⟩ }
              OrderSide.buy rs := by
          simp [AccountState.successCount, AccountState.successfulOrders,
            hpair, hoside, hside]
        have hcountS : st.successCount OrderSide.sell (r :: rs) =
            AccountState.successCount
              { st with current_position := none,
                        total_pnl := st.total_pnl +
                          Position.realized_pnl ⟨p.type, p.entry_order, some o⟩ }
              OrderSide.sell rs + 1 := by
          simp [AccountState.successCount, AccountState.successfulOrders,
            hpair, hoside, hside]
        refine ⟨by rw [hrun]; exact hg, ?_⟩
        rw [hrun, hcountB, hcountS]
        have hiSt : posIndicator st = 1 := by simp [posIndicator, hp]
        have hiS : posIndicator
            { st with current_position := none,
                      total_pnl := st.total_pnl +
                        Position.realized_pnl ⟨p.type, p.entry_order, some o⟩ } =
            0 := by simp [posIndicator]
        rw [hiS] at hc
        rw [hiSt]
        push_cast
        linarith

/-- C1: over any sequence of `place_order` calls from a fresh account,
`current_position` is None iff the number of successful sells equals the
number of successful buys; a `place_order` whose underlying swap raises
leaves `current_position` and the realized-PnL accumulator unchanged; a
successful buy sets the position to Long with `exit_order` None and a
successful sell resets it to None. -/
theorem account_position_state_machine_c1 :
    (∀ (im om : String) (trs : List TradeRequest),
      (((AccountState.init im om).runTrades trs).current_position = none ↔
        (AccountState.init im om).successCount OrderSide.sell trs =
          (AccountState.init im om).successCount OrderSide.buy trs)) ∧
    (∀ (st : AccountState) (r : TradeRequest) (msg : String),
      r.swap = .error msg →
        (st.placeOrder r).2.current_position = st.current_position ∧
        (st.placeOrder r).2.total_pnl = st.total_pnl) ∧
    (∀ (st : AccountState) (r : TradeRequest) (o : Order),
      (st.placeOrder r).1 = .ok o →
        (r.side = OrderSide.buy →
          (st.placeOrder r).2.current_position =
            some ⟨PositionType.long, o, none⟩) ∧
        (r.side = OrderSide.sell →
          (st.placeOrder r).2.current_position = none)) := by
  refine ⟨?_, ?_, ?_⟩
  · intro im om trs
    obtain ⟨hg, hc⟩ := runTrades_invariant trs (AccountState.init im om)
      (by intro p hp; simp [AccountState.init] at hp)
    have h0 : posIndicator (AccountState.init im om) = 0 := by
      simp [posIndicator, AccountState.init]
    rw [h0, sub_zero] at hc
    constructor
    · intro hnone
      have hrun0 : posIndicator
          ((AccountState.init im om).runTrades trs) = 0 := by
        simp [posIndicator, hnone]
      rw [hrun0] at hc
      omega
    · intro heq
      rw [heq] at hc
      have hrun0 : posIndicator ((AccountState.init im om).runTrades trs) = 0 := by
        omega
      unfold posIndicator at hrun0
      rcases hcp : ((AccountState.init im om).runTrades trs).current_position
        with _ | q
      · rfl
      · rw [hcp] at hrun0
        simp at hrun0
  · intro st r msg hm
    cases hs : r.side
    · rcases hcb : canBuy st.current_position r.balance with e | u
      · constructor <;>
          simp [AccountState.placeOrder, AccountState.buy, hs, hcb]
      · constructor <;>
          simp [AccountState.placeOrder, AccountState.buy, hs, hcb, hm]
    · rcases hcs : canSell st.current_position r.balance with e | u
      · constructor <;>
          simp [AccountState.placeOrder, AccountState.sell, hs, hcs]
      · constructor <;>
          simp [AccountState.placeOrder, AccountState.sell, hs, hcs, hm]
  · intro st r o hok
    rcases placeOrder_spec st r with ⟨hst, hfail⟩ | ⟨o2, hok2, hside2, hcases⟩
    · exact absurd hok (hfail o)
    · have ho : o2 = o := by
        have h := hok2.symm.trans hok
        exact Except.ok.inj h
      subst ho
      rcases hcases with ⟨hb, hl, hst2⟩ | ⟨hsl, p, hp, hpl, hst2⟩
      · refine ⟨fun _ => by rw [hst2], fun hs2 => ?_⟩
        rw [hb] at hs2
        simp at hs2
      · refine ⟨fun hs2 => ?_, fun _ => by rw [hst2]⟩
        rw [hsl] at hs2
        simp at hs2

/-- Witness for C1: a buy whose swap raises leaves the fresh account
without a position. -/
theorem account_position_state_machine_c1_witness :
    ((AccountState.init "SOL" "USDC").placeOrder
        ⟨OrderSide.buy, 10, 1, 100, .error "boom", 0⟩).2.current_position =
      (AccountState.init "SOL" "USDC").current_position :=
  (account_position_state_machine_c1.2.1 _ _ "boom" rfl).1

/-- Along any run, the final PnL accumulator is the initial one plus the
sum of `realized_pnl` over the positions closed by the run. -/
theorem runTrades_pnl (trs : List TradeRequest) :
    ∀ st : AccountState,
      (st.runTrades trs).total_pnl =
        st.total_pnl +
          ((st.closedPositions trs).map Position.realized_pnl).sum := by
  induction trs with
  | nil =>
    intro st
    simp [AccountState.runTrades, AccountState.closedPositions]
  | cons r rs ih =>
    intro st
    rcases placeOrder_spec st r with ⟨hst, hfail⟩ | ⟨o, hok, hoside, hcases⟩
    · obtain ⟨e, hpair⟩ := placeOrder_pair_of_fail st r hst hfail
      have hrun : st.runTrades (r :: rs) = st.runTrades rs := by
        simp [AccountState.runTrades, hpair]
      have hcl : st.closedPositions (r :: rs) = st.closedPositions rs := by
        cases hcp : st.current_position <;>
          simp [AccountState.closedPositions, hpair, hcp]
      rw [hrun, hcl]
      exact ih st
    · rcases hcases with ⟨hside, hl, hst2⟩ | ⟨hside, p, hp, hpl, hst2⟩
      · -- successful buy closes nothing and keeps the accumulator
        have hpair : st.placeOrder r =
            (.ok o, { st with current_position :=
                                some ⟨PositionType.long, o, none⟩ }) :=
          Prod.ext hok hst2
        have hbuy : o.side = OrderSide.buy := by rw [hoside, hside]
        have hrun : st.runTrades (r :: rs) =
            AccountState.runTrades
              { st with current_position := some ⟨PositionType.long, o, none⟩ }
              rs := by
          simp [AccountState.runTrades, hpair]
        have hcl : st.closedPositions (r :: rs) =
            AccountState.closedPositions
              { st with current_position := some ⟨PositionType.long, o, none⟩ }
              rs := by
          cases hcp : st.current_position <;>
            simp [AccountState.closedPositions, hpair, hcp, hbuy]
        rw [hrun, hcl, ih]
      · -- successful sell closes exactly one position and adds its pnl
        have hpair : st.placeOrder r =
            (.ok o, { st with current_position := none,
                              total_pnl := st.total_pnl +
                                Position.realized_pnl
                                  ⟨p.type, p.entry_order, some o⟩ }) :=
          Prod.ext hok hst2
        have hsell : o.side = OrderSide.sell := by rw [hoside, hside]
        have hrun : st.runTrades (r :: rs) =
            AccountState.runTrades
              { st with current_position := none,
                        total_pnl := st.total_pnl +
                          Position.realized_pnl
                            ⟨p.type, p.entry_order, some o⟩ }
              rs := by
          simp [AccountState.runTrades, hpair]
        have hcl : st.closedPositions (r :: rs) =
            (⟨p.type, p.entry_order, some o⟩ : Position) ::
              AccountState.closedPositions
                { st with current_position := none,
                          total_pnl := st.total_pnl +
                            Position.realized_pnl
                              ⟨p.type, p.entry_order, some o⟩ }
                rs := by
          simp [AccountState.closedPositions, hpair, hp, hsell]
        rw [hrun, hcl, ih]
        simp
        ring

/-- Every position closed along a run carries an exit order. -/
theorem closedPositions_exit (trs : List TradeRequest) :
    ∀ (st : AccountState) (p : Position),
      p ∈ st.closedPositions trs → p.exit_order.isSome = true := by
  induction trs with
  | nil =>
    intro st p hp
    simp [AccountState.closedPositions] at hp
  | cons r rs ih =>
    intro st p hp
    rcases h1 : (st.placeOrder r).1 with e | o
    · rcases hcp : st.current_position with _ | q <;>
        · simp [AccountState.closedPositions, h1, hcp] at hp
          exact ih _ p hp
    · rcases hcp : st.current_position with _ | q
      · simp [AccountState.closedPositions, h1, hcp] at hp
        exact ih _ p hp
      · by_cases hsd : o.side = OrderSide.sell
        · simp [AccountState.closedPositions, h1, hcp, hsd] at hp
          rcases hp with hp | hp
          · rw [hp]
            rfl
          · exact ih _ p hp
        · simp [AccountState.closedPositions, h1, hcp, hsd] at hp
          exact ih _ p hp

/-- C4: at every point of an account lifetime (after any run of
`place_order` calls from a fresh account), `get_total_realized_pnl` equals,
in exact Decimal arithmetic, the sum of `realized_pnl` — that is, of
`(exit_order.price - entry_order.price) * entry_order.quantity` — over all
positions closed so far, each of which has `exit_order` set. -/
theorem pnl_conservation_c4 (im om : String) (trs : List TradeRequest) :
    ((AccountState.init im om).runTrades trs).get_total_realized_pnl =
      (((AccountState.init im om).closedPositions trs).map
        Position.realized_pnl).sum ∧
    (((AccountState.init im om).closedPositions trs).all
      (fun p => p.exit_order.isSome)) = true := by
  constructor
  · have h := runTrades_pnl trs (AccountState.init im om)
    simpa [AccountState.get_total_realized_pnl, AccountState.init] using h
  · rw [List.all_eq_true]
    intro p hp
    exact closedPositions_exit trs (AccountState.init im om) p hp

/-- With no open position, `TargetValueStrategy` reaches the
`OrderSignal(OrderSide.BUY)` call — which raises `TypeError`, the required
quantity being omitted — exactly when the price is at or below the target,
the spread (if present) does not exceed `max_spread`, and a previous price
is known that does not exceed the current one (no longer falling). -/
theorem tv_buy_emit_iff (s : TargetValueStrategy) (ticker : TickerData) :
    (s.on_market_refresh ticker none).1 = .error PyError.typeError ↔
      (ticker.buy ≤ s.target_buy_price ∧
        (∀ sp, ticker.spread = some sp → sp ≤ s.max_spread) ∧
        (∃ lp, s.last_price = some lp ∧ lp ≤ ticker.buy)) := by
  unfold TargetValueStrategy.on_market_refresh TargetValueStrategy.buyBranchTail
  rcases hsp : ticker.spread with _ | sp <;>
    rcases hlp : s.last_price with _ | lp <;>
      simp only [hsp, hlp] <;> split_ifs <;>
        simp_all [mkOrderSignal, Except.map, not_lt, not_le] <;>
          split_ifs <;> simp_all [mkOrderSignal, Except.map, not_lt, not_le]

/-- With no open position the strategy never returns a signal: every tick
either returns no signal or raises the buy-branch `TypeError`. -/
theorem tv_buy_no_signal (s : TargetValueStrategy) (ticker : TickerData) :
    (s.on_market_refresh ticker none).1 = .ok none ∨
      (s.on_market_refresh ticker none).1 = .error PyError.typeError := by
  unfold TargetValueStrategy.on_market_refresh TargetValueStrategy.buyBranchTail
  rcases hsp : ticker.spread with _ | sp <;>
    rcases hlp : s.last_price with _ | lp <;>
      simp only [hsp, hlp] <;> split_ifs <;>
        simp_all [mkOrderSignal, Except.map, not_lt, not_le]

/-- With no open position and no signal emitted, `last_price` is updated to
the current price, except on a tick skipped for high spread, where it is
left unchanged. -/
theorem tv_buy_last_price_update (s : TargetValueStrategy)
    (ticker : TickerData) :
    (s.on_market_refresh ticker none).1 = .ok none →
      ((s.on_market_refresh ticker none).2.last_price = some ticker.buy ∨
        (∃ sp, ticker.spread = some sp ∧ s.max_spread < sp ∧
          ticker.buy ≤ s.target_buy_price ∧
          (s.on_market_refresh ticker none).2.last_price = s.last_price)) := by
  unfold TargetValueStrategy.on_market_refresh TargetValueStrategy.buyBranchTail
  rcases hsp : ticker.spread with _ | sp <;>
    rcases hlp : s.last_price with _ | lp <;>
      simp only [hsp, hlp] <;> split_ifs <;>
        simp_all [mkOrderSignal, Except.map, not_lt, not_le] <;>
          split_ifs <;> simp_all [mkOrderSignal, Except.map, not_lt, not_le]

set_option maxHeartbeats 1000000 in
/-- With an open position, `TargetValueStrategy` emits a Sell of the entry
quantity exactly when the profit gate holds (profit at target, or latched
and profit at least target minus 1.1) and the drop from the (updated)
highest price reaches `stop_loss_percent`. -/
theorem tv_sell_emit_iff (s : TargetValueStrategy) (ticker : TickerData)
    (pos : Position) :
    (s.on_market_refresh ticker (some pos)).1 =
        .ok (some ⟨OrderSide.sell, pos.entry_order.quantity⟩) ↔
      (((ticker.buy - pos.entry_order.price) / pos.entry_order.price * 100 ≥
          s.target_profit_percent ∨
        (s.target_profit_reached = true ∧
          (ticker.buy - pos.entry_order.price) / pos.entry_order.price * 100 ≥
            s.target_profit_percent - (1.1 : ℚ))) ∧
        (((if s.target_profit_reached = true then
              (if ticker.buy > s.highest_price_after_target then ticker.buy
                else s.highest_price_after_target)
            else ticker.buy) - ticker.buy) /
          (if s.target_profit_reached = true then
              (if ticker.buy > s.highest_price_after_target then ticker.buy
                else s.highest_price_after_target)
            else ticker.buy) * 100 ≥ s.stop_loss_percent)) := by
  unfold TargetValueStrategy.on_market_refresh
  cases hl : s.target_profit_reached <;>
    split_ifs <;> simp_all [mkOrderSignal, Except.map, not_lt, not_le] <;>
      split_ifs <;> simp_all [mkOrderSignal, Except.map, not_lt, not_le] <;>
        linarith

set_option maxHeartbeats 1000000 in
/-- With an open position, a tick that fails the profit gate emits no
signal and leaves the latch and the recorded highest price unchanged. -/
theorem tv_sell_gate_closed (s : TargetValueStrategy) (ticker : TickerData)
    (pos : Position) :
    ¬ ((ticker.buy - pos.entry_order.price) / pos.entry_order.price * 100 ≥
          s.target_profit_percent ∨
        (s.target_profit_reached = true ∧
          (ticker.buy - pos.entry_order.price) / pos.entry_order.price * 100 ≥
            s.target_profit_percent - (1.1 : ℚ))) →
      ((s.on_market_refresh ticker (some pos)).1 = .ok none ∧
        (s.on_market_refresh ticker (some pos)).2.target_profit_reached =
          s.target_profit_reached ∧
        (s.on_market_refresh ticker (some pos)).2.highest_price_after_target =
          s.highest_price_after_target) := by
  unfold TargetValueStrategy.on_market_refresh
  cases hl : s.target_profit_reached <;> intro hgate <;> dsimp only <;>
    split_ifs <;> simp_all [mkOrderSignal, Except.map, not_lt, not_le] <;>
      linarith

/-- Counterexample to C6 as stated: with `target_buy_price = 10.0000` and
`max_spread = 100.0`, after a seed tick at 10.0001 (which sets
`last_price`), the tick with buy 9.9999 and spread 0.5 yields NO signal at
all — the falling-price skip returns ok-none, reaching neither a Buy
signal nor even the buy branch — contradicting the claimed Buy. -/
theorem target_value_buy_scenario_counterexample_c6 :
    ((((TargetValueStrategy.init (10.0000 : ℚ) (1.0 : ℚ) (1.0 : ℚ) (10.0 : ℚ)
        (100.0 : ℚ)).on_market_refresh
          ⟨(10.0001 : ℚ), (10.0001 : ℚ), some (0.5 : ℚ)⟩ none).2).last_price =
      some (10.0001 : ℚ)) ∧
    ((((TargetValueStrategy.init (10.0000 : ℚ) (1.0 : ℚ) (1.0 : ℚ) (10.0 : ℚ)
        (100.0 : ℚ)).on_market_refresh
          ⟨(10.0001 : ℚ), (10.0001 : ℚ), some (0.5 : ℚ)⟩ none).2).on_market_refresh
        ⟨(9.9999 : ℚ), (9.9999 : ℚ), some (0.5 : ℚ)⟩ none).1 = .ok none := by
  constructor <;>
    norm_num [TargetValueStrategy.init, TargetValueStrategy.on_market_refresh,
      TargetValueStrategy.buyBranchTail, mkOrderSignal]

/-- C6 (amended): with no open position the strategy reaches its buy
branch — `return OrderSignal(OrderSide.BUY)`, which raises `TypeError`
because the required quantity argument is omitted (the C8 regression) —
exactly when `ticker.buy ≤ target_buy_price`, the spread (when present) is
at most `max_spread`, and a previous price is recorded with
`ticker.buy ≥ last_price` (no longer falling); no tick without a position
ever returns a signal. `last_price` is updated on every tick returning no
signal except the high-spread skip, which leaves it unchanged. Concretely
(target 10.0000, max_spread 100.0, `last_price` seeded to 9.9999 as the
repository tests do): a tick with buy 9.9999 and spread 0.5 takes the buy
branch and raises `TypeError` instead of yielding a Buy signal; the same
tick with `max_spread` 0.1 returns no signal; a falling tick with buy
9.9998 returns no signal. -/
theorem target_value_buy_rule_c6 :
    (∀ (s : TargetValueStrategy) (ticker : TickerData),
      ((s.on_market_refresh ticker none).1 = .error PyError.typeError ↔
        (ticker.buy ≤ s.target_buy_price ∧
          (∀ sp, ticker.spread = some sp → sp ≤ s.max_spread) ∧
          (∃ lp, s.last_price = some lp ∧ lp ≤ ticker.buy))) ∧
      ((s.on_market_refresh ticker none).1 = .ok none ∨
        (s.on_market_refresh ticker none).1 = .error PyError.typeError) ∧
      ((s.on_market_refresh ticker none).1 = .ok none →
        ((s.on_market_refresh ticker none).2.last_price = some ticker.buy ∨
          (∃ sp, ticker.spread = some sp ∧ s.max_spread < sp ∧
            ticker.buy ≤ s.target_buy_price ∧
            (s.on_market_refresh ticker none).2.last_price = s.last_price)))) ∧
    ((({ TargetValueStrategy.init (10.0000 : ℚ) (1.0 : ℚ) (1.0 : ℚ)
          (10.0 : ℚ) (100.0 : ℚ) with last_price := some (9.9999 : ℚ) }
        : TargetValueStrategy).on_market_refresh
        ⟨(9.9999 : ℚ), (9.9999 : ℚ), some (0.5 : ℚ)⟩ none).1 =
      .error PyError.typeError) ∧
    ((({ TargetValueStrategy.init (10.0000 : ℚ) (1.0 : ℚ) (1.0 : ℚ)
          (10.0 : ℚ) (0.1 : ℚ) with last_price := some (9.9999 : ℚ) }
        : TargetValueStrategy).on_market_refresh
        ⟨(9.9999 : ℚ), (9.9999 : ℚ), some (0.5 : ℚ)⟩ none).1 = .ok none) ∧
    ((({ TargetValueStrategy.init (10.0000 : ℚ) (1.0 : ℚ) (1.0 : ℚ)
          (10.0 : ℚ) (100.0 : ℚ) with last_price := some (9.9999 : ℚ) }
        : TargetValueStrategy).on_market_refresh
        ⟨(9.9998 : ℚ), (9.9998 : ℚ), some (0.5 : ℚ)⟩ none).1 = .ok none) := by
  refine ⟨fun s ticker => ⟨tv_buy_emit_iff s ticker, tv_buy_no_signal s ticker,
    tv_buy_last_price_update s ticker⟩, ?_, ?_, ?_⟩ <;>
    norm_num [TargetValueStrategy.init, TargetValueStrategy.on_market_refresh,
      TargetValueStrategy.buyBranchTail, mkOrderSignal, Except.map]

/-- Witness for C6 at the corrected concrete scenario: the buy-branch
characterization applied with its conditions discharged — the seeded
9.9999 tick raises the constructor `TypeError`. -/
theorem target_value_buy_rule_c6_witness :
    (({ TargetValueStrategy.init (10.0000 : ℚ) (1.0 : ℚ) (1.0 : ℚ)
          (10.0 : ℚ) (100.0 : ℚ) with last_price := some (9.9999 : ℚ) }
        : TargetValueStrategy).on_market_refresh
        ⟨(9.9999 : ℚ), (9.9999 : ℚ), some (0.5 : ℚ)⟩ none).1 =
      .error PyError.typeError :=
  ((target_value_buy_rule_c6.1 _ _).1).mpr
    ⟨by norm_num [TargetValueStrategy.init],
     fun sp hsp => by
       rw [Option.some.injEq] at hsp
       rw [← hsp]
       norm_num [TargetValueStrategy.init],
     ⟨(9.9999 : ℚ), rfl, le_refl _⟩⟩

/-- Counterexample to C7 as stated: with target profit 1.0 and stop loss
1.0, entry price 10.0001, a tick at 11.9999 latches the target (highest
11.9999); the next tick at 9.0 has a drop from the highest of
(11.9999 - 9)/11.9999*100 ≥ 1 (the claimed sell condition), yet the
strategy emits NO signal, because the profit percent is below
target_profit_percent - 1.1. -/
theorem target_value_sell_scenario_counterexample_c7 :
    ((((TargetValueStrategy.init (10.0000 : ℚ) (1.0 : ℚ) (1.0 : ℚ) (10.0 : ℚ)
        (100.0 : ℚ)).on_market_refresh
          ⟨(11.9999 : ℚ), (11.9999 : ℚ), some (0.5 : ℚ)⟩
          (some ⟨PositionType.long,
            ⟨"1", "A", "B", 10, (10.0001 : ℚ), OrderSide.buy, 0⟩,
            none⟩)).2).target_profit_reached = true) ∧
    ((((TargetValueStrategy.init (10.0000 : ℚ) (1.0 : ℚ) (1.0 : ℚ) (10.0 : ℚ)
        (100.0 : ℚ)).on_market_refresh
          ⟨(11.9999 : ℚ), (11.9999 : ℚ), some (0.5 : ℚ)⟩
          (some ⟨PositionType.long,
            ⟨"1", "A", "B", 10, (10.0001 : ℚ), OrderSide.buy, 0⟩,
            none⟩)).2).highest_price_after_target = (11.9999 : ℚ)) ∧
    (((11.9999 : ℚ) - 9) / (11.9999 : ℚ) * 100 ≥ 1) ∧
    (((((TargetValueStrategy.init (10.0000 : ℚ) (1.0 : ℚ) (1.0 : ℚ) (10.0 : ℚ)
        (100.0 : ℚ)).on_market_refresh
          ⟨(11.9999 : ℚ), (11.9999 : ℚ), some (0.5 : ℚ)⟩
          (some ⟨PositionType.long,
            ⟨"1", "A", "B", 10, (10.0001 : ℚ), OrderSide.buy, 0⟩,
            none⟩)).2).on_market_refresh
          ⟨(9 : ℚ), (9 : ℚ), some (0.5 : ℚ)⟩
          (some ⟨PositionType.long,
            ⟨"1", "A", "B", 10, (10.0001 : ℚ), OrderSide.buy, 0⟩,
            none⟩)).1 = .ok none) := by
  refine ⟨?_, ?_, by norm_num, ?_⟩ <;>
    norm_num [TargetValueStrategy.init, TargetValueStrategy.on_market_refresh,
      mkOrderSignal]

/-- C7 (amended): while a position is open, the strategy latches
`target_profit_reached` and tracks the highest price only on ticks passing
the profit gate (profit percent at target, or already latched and profit
percent at least target minus 1.1); it emits a Sell of the entry quantity
exactly when that gate holds and the drop from the updated highest price
reaches `stop_loss_percent`; a tick failing the gate emits nothing and
leaves the latch and the highest unchanged. Concretely (entry 10.0001,
quantity 10, target 1.0, stop 1.0): tick 11.9999 latches with highest
11.9999 and no signal, tick 12.9999 raises the highest with no signal, and
tick 10.9999 sells quantity 10. -/
theorem target_value_sell_rule_c7 :
    (∀ (s : TargetValueStrategy) (ticker : TickerData) (pos : Position),
      ((s.on_market_refresh ticker (some pos)).1 =
          .ok (some ⟨OrderSide.sell, pos.entry_order.quantity⟩) ↔
        (((ticker.buy - pos.entry_order.price) / pos.entry_order.price * 100 ≥
            s.target_profit_percent ∨
          (s.target_profit_reached = true ∧
            (ticker.buy - pos.entry_order.price) / pos.entry_order.price *
              100 ≥ s.target_profit_percent - (1.1 : ℚ))) ∧
          (((if s.target_profit_reached = true then
                (if ticker.buy > s.highest_price_after_target then ticker.buy
                  else s.highest_price_after_target)
              else ticker.buy) - ticker.buy) /
            (if s.target_profit_reached = true then
                (if ticker.buy > s.highest_price_after_target then ticker.buy
                  else s.highest_price_after_target)
              else ticker.buy) * 100 ≥ s.stop_loss_percent))) ∧
      (¬ ((ticker.buy - pos.entry_order.price) / pos.entry_order.price * 100 ≥
            s.target_profit_percent ∨
          (s.target_profit_reached = true ∧
            (ticker.buy - pos.entry_order.price) / pos.entry_order.price *
              100 ≥ s.target_profit_percent - (1.1 : ℚ))) →
        ((s.on_market_refresh ticker (some pos)).1 = .ok none ∧
          (s.on_market_refresh ticker (some pos)).2.target_profit_reached =
            s.target_profit_reached ∧
          (s.on_market_refresh ticker (some pos)).2.highest_price_after_target =
            s.highest_price_after_target))) ∧
    (((TargetValueStrategy.init (10.0000 : ℚ) (1.0 : ℚ) (1.0 : ℚ) (10.0 : ℚ)
        (100.0 : ℚ)).on_market_refresh
        ⟨(11.9999 : ℚ), (11.9999 : ℚ), some (0.5 : ℚ)⟩
        (some ⟨PositionType.long,
          ⟨"1", "A", "B", 10, (10.0001 : ℚ), OrderSide.buy, 0⟩, none⟩)).1 =
      .ok none) ∧
    ((((TargetValueStrategy.init (10.0000 : ℚ) (1.0 : ℚ) (1.0 : ℚ) (10.0 : ℚ)
        (100.0 : ℚ)).on_market_refresh
          ⟨(11.9999 : ℚ), (11.9999 : ℚ), some (0.5 : ℚ)⟩
          (some ⟨PositionType.long,
            ⟨"1", "A", "B", 10, (10.0001 : ℚ), OrderSide.buy, 0⟩,
            none⟩)).2).target_profit_reached = true) ∧
    (((((TargetValueStrategy.init (10.0000 : ℚ) (1.0 : ℚ) (1.0 : ℚ) (10.0 : ℚ)
        (100.0 : ℚ)).on_market_refresh
          ⟨(11.9999 : ℚ), (11.9999 : ℚ), some (0.5 : ℚ)⟩
          (some ⟨PositionType.long,
            ⟨"1", "A", "B", 10, (10.0001 : ℚ), OrderSide.buy, 0⟩,
            none⟩)).2).on_market_refresh
          ⟨(12.9999 : ℚ), (12.9999 : ℚ), some (0.5 : ℚ)⟩
          (some ⟨PositionType.long,
            ⟨"1", "A", "B", 10, (10.0001 : ℚ), OrderSide.buy, 0⟩,
            none⟩)).1 = .ok none) ∧
    ((((((TargetValueStrategy.init (10.0000 : ℚ) (1.0 : ℚ) (1.0 : ℚ)
        (10.0 : ℚ) (100.0 : ℚ)).on_market_refresh
          ⟨(11.9999 : ℚ), (11.9999 : ℚ), some (0.5 : ℚ)⟩
          (some ⟨PositionType.long,
            ⟨"1", "A", "B", 10, (10.0001 : ℚ), OrderSide.buy, 0⟩,
            none⟩)).2).on_market_refresh
          ⟨(12.9999 : ℚ), (12.9999 : ℚ), some (0.5 : ℚ)⟩
          (some ⟨PositionType.long,
            ⟨"1", "A", "B", 10, (10.0001 : ℚ), OrderSide.buy, 0⟩,
            none⟩)).2).highest_price_after_target = (12.9999 : ℚ)) ∧
    (((((((TargetValueStrategy.init (10.0000 : ℚ) (1.0 : ℚ) (1.0 : ℚ)
        (10.0 : ℚ) (100.0 : ℚ)).on_market_refresh
          ⟨(11.9999 : ℚ), (11.9999 : ℚ), some (0.5 : ℚ)⟩
          (some ⟨PositionType.long,
            ⟨"1", "A", "B", 10, (10.0001 : ℚ), OrderSide.buy, 0⟩,
            none⟩)).2).on_market_refresh
          ⟨(12.9999 : ℚ), (12.9999 : ℚ), some (0.5 : ℚ)⟩
          (some ⟨PositionType.long,
            ⟨"1", "A", "B", 10, (10.0001 : ℚ), OrderSide.buy, 0⟩,
            none⟩)).2).on_market_refresh
          ⟨(10.9999 : ℚ), (10.9999 : ℚ), some (0.5 : ℚ)⟩
          (some ⟨PositionType.long,
            ⟨"1", "A", "B", 10, (10.0001 : ℚ), OrderSide.buy, 0⟩,
            none⟩)).1 =
      .ok (some ⟨OrderSide.sell, 10⟩)) := by
  refine ⟨fun s ticker pos =>
    ⟨tv_sell_emit_iff s ticker pos, tv_sell_gate_closed s ticker pos⟩,
    ?_, ?_, ?_, ?_, ?_⟩ <;>
    norm_num [TargetValueStrategy.init, TargetValueStrategy.on_market_refresh,
      mkOrderSignal, Except.map]

/-- Witness for C7: the gate-failure clause applied at the counterexample
tick, with its hypothesis discharged numerically. -/
theorem target_value_sell_rule_c7_witness :
    (({ TargetValueStrategy.init (10.0000 : ℚ) (1.0 : ℚ) (1.0 : ℚ)
          (10.0 : ℚ) (100.0 : ℚ) with
          target_profit_reached := true,
          highest_price_after_target := (11.9999 : ℚ) }
        : TargetValueStrategy).on_market_refresh
        ⟨(9 : ℚ), (9 : ℚ), some (0.5 : ℚ)⟩
        (some ⟨PositionType.long,
          ⟨"1", "A", "B", 10, (10.0001 : ℚ), OrderSide.buy, 0⟩, none⟩)).1 =
        .ok none ∧
      (({ TargetValueStrategy.init (10.0000 : ℚ) (1.0 : ℚ) (1.0 : ℚ)
          (10.0 : ℚ) (100.0 : ℚ) with
          target_profit_reached := true,
          highest_price_after_target := (11.9999 : ℚ) }
        : TargetValueStrategy).on_market_refresh
        ⟨(9 : ℚ), (9 : ℚ), some (0.5 : ℚ)⟩
        (some ⟨PositionType.long,
          ⟨"1", "A", "B", 10, (10.0001 : ℚ), OrderSide.buy, 0⟩, none⟩)).2.target_profit_reached =
        ({ TargetValueStrategy.init (10.0000 : ℚ) (1.0 : ℚ) (1.0 : ℚ)
          (10.0 : ℚ) (100.0 : ℚ) with
          target_profit_reached := true,
          highest_price_after_target := (11.9999 : ℚ) }
        : TargetValueStrategy).target_profit_reached :=
  have h := (target_value_sell_rule_c7.1
    ({ TargetValueStrategy.init (10.0000 : ℚ) (1.0 : ℚ) (1.0 : ℚ)
        (10.0 : ℚ) (100.0 : ℚ) with
        target_profit_reached := true,
        highest_price_after_target := (11.9999 : ℚ) } : TargetValueStrategy)
    ⟨(9 : ℚ), (9 : ℚ), some (0.5 : ℚ)⟩
    ⟨PositionType.long,
      ⟨"1", "A", "B", 10, (10.0001 : ℚ), OrderSide.buy, 0⟩, none⟩).2
    (by norm_num [TargetValueStrategy.init])
  ⟨h.1, h.2.1⟩

/-- C8 evidence: the `OrderSignal` dataclass rejects a construction without
the quantity argument (`TypeError`), so `RandomStrategy`'s buy branch —
which calls `OrderSignal(OrderSide.BUY)` — raises instead of returning a
signal; and when a signal does carry a quantity, the trading loop forwards
it to `place_order` unchanged: with balance 100 and price 10 the placed
order keeps the signal's quantity 7 even though
`calculate_quantity(100, 10) = 5`. -/
theorem order_signal_quantity_code_bug_c8 :
    (mkOrderSignal ⟨OrderSide.buy, none⟩ = .error PyError.typeError) ∧
    ((RandomStrategy.on_market_refresh ⟨100, 100, []⟩
        ⟨(10 : ℚ), (10 : ℚ), none⟩ 1 none).1 = .error PyError.typeError) ∧
    ((processMarketData (AccountState.init "A" "B") ⟨(10 : ℚ), (10 : ℚ), none⟩
        (some ⟨OrderSide.buy, (7 : ℚ)⟩) 100 (.ok "oid") 0).1 =
      .ok (some ⟨"oid", "A", "B", (7 : ℚ), (10 : ℚ), OrderSide.buy, 0⟩)) ∧
    (RandomStrategy.calculate_quantity 100 10 = 5) := by
  refine ⟨rfl, rfl, ?_, ?_⟩
  · norm_num [processMarketData, AccountState.placeOrder, AccountState.buy,
      AccountState.init, canBuy, isLongOpen]
    rfl
  · norm_num [RandomStrategy.calculate_quantity]

/-- Counterexample to C9 as stated: in the synchronous dry-run adapter
(`DryJupiterPrivateAPI`), the simulate step does NOT execute (the override
replaces `_send_transaction_and_wait_for_confirmation`, which contains the
simulation), although it does execute in the real adapter; the dry swap
still succeeds with a fabricated signature. -/
theorem dry_run_simulate_skipped_counterexample_c9 :
    (RpcOp.simulate ∈ (jupiterPrivateDoSwap ⟨false, false, 42, true⟩).2) ∧
    (RpcOp.simulate ∉ (dryJupiterPrivateDoSwap ⟨false, false, 42, true⟩ 0).2.1) ∧
    ((dryJupiterPrivateDoSwap ⟨false, false, 42, true⟩ 0).1 = .ok 0) := by
  refine ⟨by simp [jupiterPrivateDoSwap], by simp [dryJupiterPrivateDoSwap], rfl⟩

/-- C9 (amended): in dry-run mode `send_raw_transaction` is never called
and no confirmation poll happens, confirmation succeeding immediately; a
fresh signature is fabricated per swap (consecutive dry swaps return
different signatures). In the RPC-level dry-run (`AsyncRPCClient`), all
upstream steps — quote, build, sign, simulate — still execute as in real
mode; in the synchronous `DryJupiterPrivateAPI` only quote, build and sign
execute: its override skips the simulation together with submit and
confirmation. -/
theorem dry_run_pipeline_c9 :
    (∀ (env : PipelineEnv) (counter : Nat),
      RpcOp.sendRaw ∉ (asyncDoSwap true env counter).2.1 ∧
      RpcOp.sendRaw ∉ (dryJupiterPrivateDoSwap env counter).2.1 ∧
      RpcOp.statusPoll ∉ (asyncDoSwap true env counter).2.1 ∧
      RpcOp.statusPoll ∉ (dryJupiterPrivateDoSwap env counter).2.1) ∧
    (∀ (env : PipelineEnv) (counter : Nat),
      env.routePlanEmpty = false → env.simulateErr = false →
        ((asyncDoSwap true env counter).1 = .ok counter ∧
          (asyncDoSwap true env counter).2.1 =
            [RpcOp.quote, RpcOp.buildTx, RpcOp.signTx, RpcOp.simulate] ∧
          (asyncDoSwap true env counter).2.2 = counter + 1 ∧
          (asyncDoSwap true env
            ((asyncDoSwap true env counter).2.2)).1 ≠
            (asyncDoSwap true env counter).1 ∧
          (dryJupiterPrivateDoSwap env counter).1 = .ok counter ∧
          (dryJupiterPrivateDoSwap env counter).2.1 =
            [RpcOp.quote, RpcOp.buildTx, RpcOp.signTx] ∧
          (dryJupiterPrivateDoSwap env counter).2.2 = counter + 1)) ∧
    (∀ (env : PipelineEnv) (counter : Nat),
      env.routePlanEmpty = false → env.simulateErr = false →
        env.confirmOk = true →
        (asyncDoSwap false env counter).2.1 =
          [RpcOp.quote, RpcOp.buildTx, RpcOp.signTx, RpcOp.simulate,
            RpcOp.sendRaw, RpcOp.statusPoll]) := by
  refine ⟨?_, ?_, ?_⟩
  · intro env counter
    rcases env with ⟨re, se, sig, co⟩
    cases re <;> cases se <;>
      simp [asyncDoSwap, asyncSendTransaction, asyncWaitForConfirmation,
        dryJupiterPrivateDoSwap]
  · intro env counter hre hse
    rcases env with ⟨re, se, sig, co⟩
    simp only at hre hse
    subst hre hse
    simp [asyncDoSwap, asyncSendTransaction, asyncWaitForConfirmation,
      dryJupiterPrivateDoSwap]
  · intro env counter hre hse hco
    rcases env with ⟨re, se, sig, co⟩
    simp only at hre hse hco
    subst hre hse hco
    simp [asyncDoSwap, asyncSendTransaction, asyncWaitForConfirmation]

/-- Witness for C9: the dry-run pipeline at a concrete environment
performs exactly quote, build, sign, simulate. -/
theorem dry_run_pipeline_c9_witness :
    (asyncDoSwap true ⟨false, false, 42, true⟩ 0).2.1 =
      [RpcOp.quote, RpcOp.buildTx, RpcOp.signTx, RpcOp.simulate] :=
  (dry_run_pipeline_c9.2.1 ⟨false, false, 42, true⟩ 0 rfl rfl).2.1

end Traderbot
